import Mathlib

/-!
Verification of the Medicaid fraud-signal detection engine
(`detect_fraud.py` and the auxiliary `src/output.py` module).

Monetary amounts are modelled as exact rationals; Python `round(x, 2)`
is modelled by `round2` (round half to even on the cent grid), and SQL
expressions of the form `x / NULLIF(d, 0)` are modelled with `Option`
so that no division by zero is ever performed.
-/

namespace FraudDetector

/-- Round a rational to the nearest integer, halves to even (the
rounding used by Python `round`), computed with integer arithmetic:
`n` is the floor of `x` and `t` compares twice the fractional part of
`x` against 1. -/
def roundHalfEven (x : ℚ) : ℤ :=
  let n : ℤ := x.num.fdiv x.den
  let t : ℤ := 2 * x.num - 2 * n * x.den
  if t < x.den then n
  else if (x.den : ℤ) < t then n + 1
  else if n % 2 = 0 then n else n + 1

/-- Python `round(x, 2)`: round to the cent grid. -/
def round2 (x : ℚ) : ℚ := Rat.divInt (roundHalfEven (x * 100)) 100

/-- A rational that is a whole number of cents. -/
def IsCents (x : ℚ) : Prop := (x * 100).den = 1

instance : DecidablePred IsCents := fun x => inferInstanceAs (Decidable ((x * 100).den = 1))

theorem roundHalfEven_den_one (q : ℚ) (h : q.den = 1) : roundHalfEven q = q.num := by
  unfold roundHalfEven
  rw [h]
  simp [Int.fdiv_one]

theorem round2_isCents (x : ℚ) (h : IsCents x) : round2 x = x := by
  unfold IsCents at h
  unfold round2
  have hx : ((x * 100).num : ℚ) = x * 100 := by
    conv_rhs => rw [← Rat.num_div_den (x * 100)]
    rw [h]
    simp
  rw [roundHalfEven_den_one _ h, Rat.divInt_eq_div, hx]
  push_cast
  field_simp

theorem isCents_add {x y : ℚ} (hx : IsCents x) (hy : IsCents y) : IsCents (x + y) := by
  unfold IsCents at *
  have hx' : ((x * 100).num : ℚ) = x * 100 := by
    conv_rhs => rw [← Rat.num_div_den (x * 100)]; rw [hx]; simp
  have hy' : ((y * 100).num : ℚ) = y * 100 := by
    conv_rhs => rw [← Rat.num_div_den (y * 100)]; rw [hy]; simp
  have : (x + y) * 100 = (((x * 100).num + (y * 100).num : ℤ) : ℚ) := by
    push_cast
    rw [hx', hy']
    ring
  rw [this]
  exact Rat.den_intCast _

theorem isCents_zero : IsCents 0 := by
  unfold IsCents
  norm_num

theorem isCents_listSum {l : List ℚ} (h : ∀ x ∈ l, IsCents x) : IsCents l.sum := by
  induction l with
  | nil => simpa using isCents_zero
  | cons a t ih =>
    simp only [List.sum_cons]
    exact isCents_add (h a (by simp)) (ih fun x hx => h x (by simp [hx]))

/-! ## Data model

Signal records and provider entries as produced by the detector
functions in `detect_fraud.py`, and the finalized report shape built by
`enrich_and_finalize`.
-/

/-- Severity levels of a signal (`critical`, `high`, `medium` in the code). -/
inductive Severity where
  | critical
  | high
  | medium
deriving DecidableEq, Repr

/-- The `severity_order` dict used to pick the dominant signal. -/
def severityRank : Severity → ℕ
  | .critical => 0
  | .high => 1
  | .medium => 2

/-- One fraud signal attached to a provider (the fields of the signal
dicts that the merge, escalation and report stages inspect). -/
structure Signal where
  signal_name : String
  severity : Severity
  estimated_overpayment_usd : ℚ
deriving DecidableEq, Repr

/-- A provider entry as returned by a detector (`flagged.append({...})`). -/
structure ProviderEntry where
  npi : String
  provider_name : String
  entity_type : String
  state : String
  total_paid : ℚ
  total_claims : ℤ
  total_beneficiaries : ℤ
  signals : List Signal
deriving DecidableEq, Repr

/-- Identity data returned by `enrich_provider` (NPPES parquet or API). -/
structure NppesInfo where
  provider_name : String
  entity_type : String
  state : String
  taxonomy_code : String
  enumeration_date : Option String
deriving DecidableEq, Repr

/-- The FCA relevance block built by `build_fca_relevance` (the fields
the claims are about). -/
structure FcaRelevance where
  statute_reference : String
  estimated_government_loss : ℚ
deriving DecidableEq, Repr

/-- A flagged provider record in the final report. -/
structure FinalProvider where
  npi : String
  provider_name : String
  entity_type : String
  taxonomy_code : String
  state : String
  enumeration_date : Option String
  total_paid_all_time : ℚ
  total_claims_all_time : ℤ
  total_unique_beneficiaries_all_time : ℤ
  signals : List Signal
  combined_estimated_overpayment_usd : ℚ
  fca_relevance : FcaRelevance
deriving DecidableEq, Repr

/-- The top-level report record (without the wall-clock `generated_at`
timestamp and the static string fields). -/
structure Report where
  tool_version : String
  total_providers_scanned : ℤ
  total_providers_flagged : ℤ
  total_estimated_overpayment_usd : ℚ
  flagged_providers : List FinalProvider
deriving DecidableEq, Repr

/-- One row of the Medicaid spending snapshot (normalized columns). -/
structure SpendRow where
  billing_npi : String
  servicing_npi : String
  hcpcs_code : String
  claim_month : String
  beneficiaries : ℤ
  claims : ℤ
  paid : ℚ
deriving DecidableEq, Repr

/-! ## Stable sorting

Python `list.sort(key=..., reverse=True)` and the SQL `ORDER BY ... DESC`
clauses are modelled by a stable insertion sort: an element is inserted
after all earlier elements whose key is not strictly smaller, so equal
keys keep their input order, which matches the stability guarantee of
Python sort.
-/

/-- Insert `x` into a descending-sorted list, after equal keys. -/
def insertKeyDesc (key : α → β) [LinearOrder β] (x : α) : List α → List α
  | [] => [x]
  | y :: ys => if key y < key x then x :: y :: ys else y :: insertKeyDesc key x ys

/-- Stable sort, descending by `key`. -/
def sortKeyDesc (key : α → β) [LinearOrder β] (l : List α) : List α :=
  l.foldl (fun acc x => insertKeyDesc key x acc) []

/-- Insert `x` into an ascending-sorted list, after equal keys. -/
def insertKeyAsc (key : α → β) [LinearOrder β] (x : α) : List α → List α
  | [] => [x]
  | y :: ys => if key x < key y then x :: y :: ys else y :: insertKeyAsc key x ys

/-- Stable sort, ascending by `key`. -/
def sortKeyAsc (key : α → β) [LinearOrder β] (l : List α) : List α :=
  l.foldl (fun acc x => insertKeyAsc key x acc) []

theorem insertKeyDesc_perm (key : α → β) [LinearOrder β] (x : α) (l : List α) :
    (insertKeyDesc key x l).Perm (x :: l) := by
  induction l with
  | nil => exact List.Perm.refl _
  | cons y ys ih =>
    unfold insertKeyDesc
    by_cases h : key y < key x
    · simp [h]
    · simp only [h, if_false]
      exact (ih.cons y).trans (List.Perm.swap x y ys)

theorem insertKeyAsc_perm (key : α → β) [LinearOrder β] (x : α) (l : List α) :
    (insertKeyAsc key x l).Perm (x :: l) := by
  induction l with
  | nil => exact List.Perm.refl _
  | cons y ys ih =>
    unfold insertKeyAsc
    by_cases h : key x < key y
    · simp [h]
    · simp only [h, if_false]
      exact (ih.cons y).trans (List.Perm.swap x y ys)

theorem sortKeyDesc_perm (key : α → β) [LinearOrder β] (l : List α) :
    (sortKeyDesc key l).Perm l := by
  suffices haux : ∀ (xs acc : List α),
      (xs.foldl (fun a x => insertKeyDesc key x a) acc).Perm (acc ++ xs) by
    simpa using haux l []
  intro xs
  induction xs with
  | nil => intro acc; simp
  | cons x xs ih =>
    intro acc
    simp only [List.foldl_cons]
    refine (ih (insertKeyDesc key x acc)).trans ?_
    refine (List.Perm.append_right xs (insertKeyDesc_perm key x acc)).trans ?_
    exact List.perm_middle.symm

theorem sortKeyAsc_perm (key : α → β) [LinearOrder β] (l : List α) :
    (sortKeyAsc key l).Perm l := by
  suffices haux : ∀ (xs acc : List α),
      (xs.foldl (fun a x => insertKeyAsc key x a) acc).Perm (acc ++ xs) by
    simpa using haux l []
  intro xs
  induction xs with
  | nil => intro acc; simp
  | cons x xs ih =>
    intro acc
    simp only [List.foldl_cons]
    refine (ih (insertKeyAsc key x acc)).trans ?_
    refine (List.Perm.append_right xs (insertKeyAsc_perm key x acc)).trans ?_
    exact List.perm_middle.symm

theorem insertKeyDesc_pairwise (key : α → β) [LinearOrder β] (x : α) (l : List α)
    (h : l.Pairwise (fun a b => key b ≤ key a)) :
    (insertKeyDesc key x l).Pairwise (fun a b => key b ≤ key a) := by
  induction l with
  | nil => simp [insertKeyDesc]
  | cons y ys ih =>
    rcases List.pairwise_cons.mp h with ⟨hy, hys⟩
    unfold insertKeyDesc
    by_cases hkey : key y < key x
    · simp only [hkey, if_true]
      refine List.pairwise_cons.mpr ⟨?_, h⟩
      intro b hb
      rcases List.mem_cons.mp hb with hb | hb
      · exact hb ▸ le_of_lt hkey
      · exact le_trans (hy b hb) (le_of_lt hkey)
    · simp only [hkey, if_false]
      refine List.pairwise_cons.mpr ⟨?_, ih hys⟩
      intro b hb
      have hb' : b = x ∨ b ∈ ys :=
        List.mem_cons.mp ((insertKeyDesc_perm key x ys).mem_iff.mp hb)
      rcases hb' with hb' | hb'
      · exact hb' ▸ le_of_not_lt hkey
      · exact hy b hb'

theorem insertKeyAsc_pairwise (key : α → β) [LinearOrder β] (x : α) (l : List α)
    (h : l.Pairwise (fun a b => key a ≤ key b)) :
    (insertKeyAsc key x l).Pairwise (fun a b => key a ≤ key b) := by
  induction l with
  | nil => simp [insertKeyAsc]
  | cons y ys ih =>
    rcases List.pairwise_cons.mp h with ⟨hy, hys⟩
    unfold insertKeyAsc
    by_cases hkey : key x < key y
    · simp only [hkey, if_true]
      refine List.pairwise_cons.mpr ⟨?_, h⟩
      intro b hb
      rcases List.mem_cons.mp hb with hb | hb
      · exact hb ▸ le_of_lt hkey
      · exact le_trans (le_of_lt hkey) (hy b hb)
    · simp only [hkey, if_false]
      refine List.pairwise_cons.mpr ⟨?_, ih hys⟩
      intro b hb
      have hb' : b = x ∨ b ∈ ys :=
        List.mem_cons.mp ((insertKeyAsc_perm key x ys).mem_iff.mp hb)
      rcases hb' with hb' | hb'
      · exact hb' ▸ le_of_not_lt hkey
      · exact hy b hb'

theorem sortKeyDesc_pairwise (key : α → β) [LinearOrder β] (l : List α) :
    (sortKeyDesc key l).Pairwise (fun a b => key b ≤ key a) := by
  suffices haux : ∀ (xs acc : List α), acc.Pairwise (fun a b => key b ≤ key a) →
      (xs.foldl (fun a x => insertKeyDesc key x a) acc).Pairwise (fun a b => key b ≤ key a) by
    exact haux l [] (List.Pairwise.nil)
  intro xs
  induction xs with
  | nil => intro acc hacc; simpa using hacc
  | cons x xs ih =>
    intro acc hacc
    simp only [List.foldl_cons]
    exact ih _ (insertKeyDesc_pairwise key x acc hacc)

theorem sortKeyAsc_pairwise (key : α → β) [LinearOrder β] (l : List α) :
    (sortKeyAsc key l).Pairwise (fun a b => key a ≤ key b) := by
  suffices haux : ∀ (xs acc : List α), acc.Pairwise (fun a b => key a ≤ key b) →
      (xs.foldl (fun a x => insertKeyAsc key x a) acc).Pairwise (fun a b => key a ≤ key b) by
    exact haux l [] (List.Pairwise.nil)
  intro xs
  induction xs with
  | nil => intro acc hacc; simpa using hacc
  | cons x xs ih =>
    intro acc hacc
    simp only [List.foldl_cons]
    exact ih _ (insertKeyAsc_pairwise key x acc hacc)

/-! ## Shared aggregates

Per-provider totals over the spending snapshot (the `provider_totals`
and billing CTEs of the detector queries).
-/

/-- Sum of `TOTAL_PAID` over all spending rows of a billing provider. -/
def totalPaidOf (sp : List SpendRow) (n : String) : ℚ :=
  ((sp.filter (fun r => r.billing_npi = n)).map (fun r => r.paid)).sum

/-- Sum of `TOTAL_CLAIMS` over all spending rows of a billing provider. -/
def totalClaimsOf (sp : List SpendRow) (n : String) : ℤ :=
  ((sp.filter (fun r => r.billing_npi = n)).map (fun r => r.claims)).sum

/-- Sum of `TOTAL_UNIQUE_BENEFICIARIES` over all spending rows of a billing provider. -/
def totalBenesOf (sp : List SpendRow) (n : String) : ℤ :=
  ((sp.filter (fun r => r.billing_npi = n)).map (fun r => r.beneficiaries)).sum

/-- Billing NPIs in order of first occurrence in the snapshot (the
deterministic grouping order used to model `GROUP BY`). -/
def npiFirstOcc (sp : List SpendRow) : List String :=
  sp.foldl (fun acc r => if r.billing_npi ∈ acc then acc else acc ++ [r.billing_npi]) []

/-- Per-provider totals row (`provider_totals` CTE). -/
structure ProviderTotal where
  npi : String
  total_paid : ℚ
  total_claims : ℤ
  total_beneficiaries : ℤ
deriving DecidableEq, Repr

/-- The `provider_totals` aggregate: one row per billing NPI. -/
def providerTotals (sp : List SpendRow) : List ProviderTotal :=
  (npiFirstOcc sp).map (fun n => ⟨n, totalPaidOf sp n, totalClaimsOf sp n, totalBenesOf sp n⟩)

/-! ## Signal 1 — excluded providers still billing -/

/-- One row of the OIG LEIE exclusion CSV (the columns `signal_1` reads).
`none` models a SQL NULL. -/
structure ExclRow where
  npi : Option String
  last_name : String
  first_name : String
  bus_name : String
  excl_state : String
  excl_type : String
  excl_date : String
  rein_date : Option String
deriving DecidableEq, Repr

/-- The NPI filter of the `oig_exclusions` table: `NPI IS NOT NULL AND
TRIM(NPI) != '' AND NPI != '0000000000'`. -/
def usableNpi (e : ExclRow) : Prop :=
  match e.npi with
  | none => False
  | some s => s.trim ≠ "" ∧ s ≠ "0000000000"

instance : DecidablePred usableNpi := fun e => by
  unfold usableNpi
  match e.npi with
  | none => exact inferInstanceAs (Decidable False)
  | some s => exact inferInstanceAs (Decidable (_ ∧ _))

/-- The reinstatement filter of the `oig_exclusions` table: `REINDATE IS
NULL OR REINDATE = '00000000' OR REINDATE = '0' OR TRIM(REINDATE) = ''`. -/
def reinActive (e : ExclRow) : Prop :=
  match e.rein_date with
  | none => True
  | some r => r = "00000000" ∨ r = "0" ∨ r.trim = ""

instance : DecidablePred reinActive := fun e => by
  unfold reinActive
  match e.rein_date with
  | none => exact inferInstanceAs (Decidable True)
  | some r => exact inferInstanceAs (Decidable (_ ∨ _))

/-- Provider display name built from `BUSNAME`, `FIRSTNAME`, `LASTNAME`
(in that order, skipping empty parts), defaulting to `NPI <n>`. -/
def exclProviderName (e : ExclRow) (n : String) : String :=
  let parts := [e.bus_name, e.first_name, e.last_name].filter (fun s => s ≠ "")
  if parts = [] then "NPI " ++ n else String.intercalate " " parts

/-- The provider entry `signal_1_excluded_providers` appends for one
matched exclusion row. -/
def mkSignal1Entry (e : ExclRow) (n : String) (sp : List SpendRow) : ProviderEntry :=
  let paid := totalPaidOf sp n
  { npi := n
    provider_name := exclProviderName e n
    entity_type := if e.bus_name ≠ "" then "organization" else "individual"
    state := e.excl_state
    total_paid := paid
    total_claims := totalClaimsOf sp n
    total_beneficiaries := totalBenesOf sp n
    signals := [{ signal_name := "excluded_provider_billing"
                  severity := .critical
                  estimated_overpayment_usd := round2 paid }] }

/-- The provider number of an exclusion row; rows that pass the
`usableNpi` filter always carry one. -/
def exclNpi (e : ExclRow) : String := e.npi.getD ""

/-- Signal 1: join active exclusions with billing, keep providers with
positive total paid, order by total paid descending. -/
def signal_1_excluded_providers (excl : List ExclRow) (sp : List SpendRow) :
    List ProviderEntry :=
  let act := excl.filter (fun e => usableNpi e ∧ reinActive e)
  let ents := (act.filter (fun e => 0 < totalPaidOf sp (exclNpi e))).map
    (fun e => mkSignal1Entry e (exclNpi e) sp)
  sortKeyDesc (fun p => p.total_paid) ents

/-! ## Signal 2 — statistical billing outliers -/

/-- Mean over a list of rationals (`AVG`); an empty list yields 0. -/
def popMean (l : List ℚ) : ℚ := l.sum / l.length

/-- Population variance (`STDDEV_POP` squared); an empty list yields 0. -/
def popVar (l : List ℚ) : ℚ := (l.map (fun x => (x - popMean l) ^ 2)).sum / l.length

/-- The outlier predicate `(paid - mean) / NULLIF(std, 0) > 3.0` where
`std = STDDEV_POP`. A zero standard deviation makes the divisor NULL and
the comparison false; for a positive standard deviation the comparison
is equivalent to this square-root-free form. -/
def zScoreAboveThree (paid mean variance : ℚ) : Prop :=
  variance ≠ 0 ∧ mean < paid ∧ 9 * variance < (paid - mean) ^ 2

instance : Decidable (zScoreAboveThree p m v) :=
  inferInstanceAs (Decidable (_ ∧ _ ∧ _))

/-- The eligible population of signal 2: providers with positive total
paid (`HAVING SUM(TOTAL_PAID) > 0`). -/
def signal2Eligible (sp : List SpendRow) : List ProviderTotal :=
  (providerTotals sp).filter (fun p => 0 < p.total_paid)

/-- Total paid figures of the eligible population. -/
def signal2Paids (sp : List SpendRow) : List ℚ :=
  (signal2Eligible sp).map (fun p => p.total_paid)

/-- Signal 2: providers more than three population standard deviations
above the mean total paid, ordered by total paid descending, top 200.
The emitted rows are modelled by their `provider_totals` data. -/
def signal_2_statistical_outliers (sp : List SpendRow) : List ProviderTotal :=
  let flagged := (signal2Eligible sp).filter
    (fun p => zScoreAboveThree p.total_paid (popMean (signal2Paids sp)) (popVar (signal2Paids sp)))
  (sortKeyDesc (fun p => p.total_paid) flagged).take 200

/-! ## Signal 3 — bust-out schemes (per-provider core) -/

/-- Largest element of a monthly paid window (`MAX`); head-seeded fold. -/
def peakOf (q : ℚ) (qs : List ℚ) : ℚ := qs.foldl max q

/-- The per-provider core of `signal_3_bust_out_schemes`: given the
provider's `(month, monthly_paid)` rows, return the estimated
overpayment if the provider is emitted. Months are ranked ascending
(`ROW_NUMBER() OVER (ORDER BY CLAIM_FROM_MONTH)`), the provider is
eligible when its first month is at or after `2023-01`, the peak is the
maximum over month ranks 2 through 7, and the row is emitted when
`first_month_paid > 100 AND peak_monthly_paid > first_month_paid * 6`,
with overpayment `round(peak * 0.8, 2)`. -/
def signal_3_eval (months : List (String × ℚ)) : Option ℚ :=
  match sortKeyAsc Prod.fst months with
  | [] => none
  | (m0, p0) :: rest =>
    if m0 < "2023-01" then none
    else
      match (rest.take 6).map Prod.snd with
      | [] => none
      | q :: qs =>
        if 100 < p0 ∧ p0 * 6 < peakOf q qs then some (round2 (peakOf q qs * (8 / 10)))
        else none

/-! ## Signal 6 — shell entity networks (per-official core) -/

/-- Result data of one emitted shell-network signal. -/
structure S6Result where
  severity : Severity
  network_total_paid : ℚ
  estimated_overpayment_usd : ℚ
  active_billing_npis : ℕ
deriving DecidableEq, Repr

/-- The NPIs of the official with billing activity, drawn from the first
20 entries of the official's NPI list (`npi_list[:20]`). -/
def signal6ActiveNpis (npis : List String) (sp : List SpendRow) : List String :=
  (npis.take 20).filter (fun n => sp.any (fun r => r.billing_npi = n))

/-- The network billing total the code computes: combined paid over the
first 20 NPIs of the official's list. -/
def signal6NetworkPaid (npis : List String) (sp : List SpendRow) : ℚ :=
  ((npis.take 20).map (fun n => totalPaidOf sp n)).sum

/-- Combined billing over ALL NPIs of the official, as the specification
words describe it; compare with `signal6NetworkPaid`, which the source
computes over at most the first 20 NPIs. -/
def signal6CombinedPaidClaimed (npis : List String) (sp : List SpendRow) : ℚ :=
  (npis.map (fun n => totalPaidOf sp n)).sum

/-- The per-official core of `signal_6_shell_entities`: skip officials
with no billing rows, drop networks under 10000 total paid, otherwise
emit with overpayment `round(total * 0.3, 2)` and severity medium below
500000 and high at or above it. -/
def signal_6_network (npis : List String) (sp : List SpendRow) : Option S6Result :=
  let active := signal6ActiveNpis npis sp
  if active = [] then none
  else
    let total := signal6NetworkPaid npis sp
    if total < 10000 then none
    else some { severity := if total < 500000 then .medium else .high
                network_total_paid := total
                estimated_overpayment_usd := round2 (total * (3 / 10))
                active_billing_npis := active.length }

/-! ## FCA statute mappings -/

/-- The statute reference attached by `build_fca_relevance` in
`detect_fraud.py`, keyed by the dominant signal name (unknown names fall
through to the default tuple). -/
def statuteFor (signal_name : String) : String :=
  if signal_name = "excluded_provider_billing" then "31 U.S.C. section 3729(a)(1)(A)"
  else if signal_name = "statistical_billing_outlier" then "31 U.S.C. section 3729(a)(1)(A)"
  else if signal_name = "bust_out_scheme" then "31 U.S.C. section 3729(a)(1)(C)"
  else if signal_name = "impossible_service_volume" then "31 U.S.C. section 3729(a)(1)(A)"
  else if signal_name = "home_health_abuse" then "31 U.S.C. section 3729(a)(1)(B)"
  else if signal_name = "shell_entity_network" then "31 U.S.C. section 3729(a)(1)(G)"
  else if signal_name = "geographic_anomaly" then "31 U.S.C. section 3729(a)(1)(A)"
  else if signal_name = "temporal_billing_anomaly" then "31 U.S.C. section 3729(a)(1)(A)"
  else if signal_name = "procedure_code_concentration" then "31 U.S.C. section 3729(a)(1)(A)"
  else "31 U.S.C. section 3729(a)(1)(A)"

/-- The `STATUTE_MAP` dict of `src/output.py` (a plain dict lookup). -/
def STATUTE_MAP (signal_type : String) : Option String :=
  if signal_type = "excluded_provider" then some "31 U.S.C. section 3729(a)(1)(A)"
  else if signal_type = "billing_outlier" then some "31 U.S.C. section 3729(a)(1)(A)"
  else if signal_type = "rapid_escalation" then some "31 U.S.C. section 3729(a)(1)(A)"
  else if signal_type = "workforce_impossibility" then some "31 U.S.C. section 3729(a)(1)(B)"
  else if signal_type = "shared_official" then some "31 U.S.C. section 3729(a)(1)(C)"
  else if signal_type = "geographic_implausibility" then some "31 U.S.C. section 3729(a)(1)(G)"
  else none

/-! ## Merge stage (`merge_flagged_providers`) -/

/-- Merge a later sighting of an NPI into its existing map entry:
append signals, keep the larger scalar totals, prefer a non-placeholder
name, a first non-empty state, and a non-unknown entity type. -/
def mergeEntry (old e : ProviderEntry) : ProviderEntry :=
  { npi := old.npi
    provider_name :=
      if e.provider_name.startsWith "NPI " = false then e.provider_name else old.provider_name
    entity_type := if e.entity_type ≠ "unknown" then e.entity_type else old.entity_type
    state := if e.state ≠ "" ∧ old.state = "" then e.state else old.state
    total_paid := if old.total_paid < e.total_paid then e.total_paid else old.total_paid
    total_claims := if old.total_claims < e.total_claims then e.total_claims else old.total_claims
    total_beneficiaries :=
      if old.total_beneficiaries < e.total_beneficiaries then e.total_beneficiaries
      else old.total_beneficiaries
    signals := old.signals ++ e.signals }

/-- Insert one entry into the provider map (an insertion-ordered
association list, like a Python dict keyed by `npi`). -/
def insertMergeEntry : List ProviderEntry → ProviderEntry → List ProviderEntry
  | [], e => [e]
  | a :: rest, e =>
    if a.npi = e.npi then mergeEntry a e :: rest else a :: insertMergeEntry rest e

/-- `merge_flagged_providers`: fold every detector output list, in
order, into the provider map. -/
def merge_flagged_providers (all_signals : List (List ProviderEntry)) : List ProviderEntry :=
  all_signals.flatten.foldl insertMergeEntry []

/-! ## Enrichment, escalation and report building (`enrich_and_finalize`) -/

/-- Severity escalation applied to each signal of a merged provider:
`medium` is upgraded to `high` when the provider has at least two
signals, and again when the combined overpayment exceeds 500000. -/
def escalateSignal (numSignals : ℕ) (combined : ℚ) (s : Signal) : Signal :=
  let s1 := if 2 ≤ numSignals ∧ s.severity = .medium then { s with severity := .high } else s
  if 500000 < combined ∧ s1.severity = .medium then { s1 with severity := .high } else s1

/-- The dominant signal: the first signal of lowest severity rank
(`sorted(signals, key=severity_order)[0]`, a stable sort). -/
def topSignal : List Signal → Signal
  | [] => { signal_name := "", severity := .medium, estimated_overpayment_usd := 0 }
  | s :: rest =>
    rest.foldl (fun best t => if severityRank t.severity < severityRank best.severity then t else best) s

/-- Combined overpayment of a signal list (pre-rounding). -/
def combinedOverpayment (sigs : List Signal) : ℚ :=
  (sigs.map (fun s => s.estimated_overpayment_usd)).sum

/-- Build the final record of one merged provider. `lookup` abstracts
the (cached, deterministic) `enrich_provider` NPPES lookup. -/
def finalizeProvider (lookup : String → NppesInfo) (prov : ProviderEntry) : FinalProvider :=
  let info := lookup prov.npi
  let pname :=
    if info.provider_name ≠ "NPI " ++ prov.npi ∧ prov.provider_name.startsWith "NPI "
    then info.provider_name else prov.provider_name
  let etype :=
    if info.entity_type ≠ "unknown" ∧ (prov.entity_type = "unknown" ∨ prov.entity_type = "")
    then info.entity_type else prov.entity_type
  let pstate := if info.state ≠ "" ∧ prov.state = "" then info.state else prov.state
  let combined := combinedOverpayment prov.signals
  let top := topSignal prov.signals
  { npi := prov.npi
    provider_name := pname
    entity_type := etype
    taxonomy_code := info.taxonomy_code
    state := pstate
    enumeration_date := info.enumeration_date
    total_paid_all_time := round2 prov.total_paid
    total_claims_all_time := prov.total_claims
    total_unique_beneficiaries_all_time := prov.total_beneficiaries
    signals := prov.signals.map (escalateSignal prov.signals.length combined)
    combined_estimated_overpayment_usd := round2 combined
    fca_relevance := { statute_reference := statuteFor top.signal_name
                       estimated_government_loss := round2 combined } }

/-- `enrich_and_finalize`: finalize every merged provider, accumulate
the (unrounded) combined overpayments into the report total, and sort
the flagged list by combined overpayment descending. -/
def enrich_and_finalize (lookup : String → NppesInfo) (providers : List ProviderEntry)
    (total_scanned : ℤ) : Report :=
  let finalized := providers.map (finalizeProvider lookup)
  { tool_version := "2.0.0"
    total_providers_scanned := total_scanned
    total_providers_flagged := finalized.length
    total_estimated_overpayment_usd :=
      round2 ((providers.map (fun p => combinedOverpayment p.signals)).sum)
    flagged_providers :=
      sortKeyDesc (fun p => p.combined_estimated_overpayment_usd) finalized }

/-! ## Order-independent projections of the merge result (for C9) -/

/-- All signals attached to an NPI across a list of provider entries,
as a multiset. -/
def signalsOfNpi (L : List ProviderEntry) (n : String) : Multiset Signal :=
  ((L.filter (fun e => e.npi = n)).map (fun e => (e.signals : Multiset Signal))).sum

/-- One step of a running maximum over an optional accumulator. -/
def oStep [LinearOrder γ] (a : Option γ) (x : γ) : Option γ :=
  match a with
  | none => some x
  | some y => some (max y x)

/-- Fold of a scalar field over the entries of an NPI, combining with
`max`; `none` when the NPI does not occur. -/
def maxFieldOfNpi (g : ProviderEntry → γ) [LinearOrder γ] (L : List ProviderEntry)
    (n : String) : Option γ :=
  ((L.filter (fun e => e.npi = n)).map g).foldl oStep none

/-- The `enrich_provider` fallback identity used when no NPPES data is
available for an NPI. -/
def defaultLookup (n : String) : NppesInfo :=
  { provider_name := "NPI " ++ n
    entity_type := "unknown"
    state := ""
    taxonomy_code := ""
    enumeration_date := none }

/-! ## Helper lemmas -/

theorem mem_sortKeyDesc (key : α → β) [LinearOrder β] (l : List α) (x : α) :
    x ∈ sortKeyDesc key l ↔ x ∈ l :=
  (sortKeyDesc_perm key l).mem_iff

theorem escalateSignal_overpayment (n : ℕ) (c : ℚ) (s : Signal) :
    (escalateSignal n c s).estimated_overpayment_usd = s.estimated_overpayment_usd := by
  unfold escalateSignal
  by_cases h1 : 2 ≤ n ∧ s.severity = .medium <;>
    by_cases h2 : (500000:ℚ) < c <;> simp [h1, h2] <;> split <;> rfl

theorem escalateSignal_name (n : ℕ) (c : ℚ) (s : Signal) :
    (escalateSignal n c s).signal_name = s.signal_name := by
  unfold escalateSignal
  by_cases h1 : 2 ≤ n ∧ s.severity = .medium <;>
    by_cases h2 : (500000:ℚ) < c <;> simp [h1, h2] <;> split <;> rfl

theorem escalateSignal_medium (n : ℕ) (c : ℚ) (s : Signal)
    (h : (escalateSignal n c s).severity = .medium) :
    s.severity = .medium ∧ ¬ 2 ≤ n ∧ ¬ (500000:ℚ) < c := by
  unfold escalateSignal at h
  by_cases h1 : 2 ≤ n ∧ s.severity = .medium
  · exfalso
    simp only [h1, if_true] at h
    split at h <;> simp_all
  · simp only [h1, if_false] at h
    by_cases h2 : (500000:ℚ) < c ∧ s.severity = .medium
    · exfalso
      simp only [h2, if_true] at h
      simp_all
    · simp only [h2, if_false] at h
      rcases Decidable.not_and_iff_or_not.mp h1 with h1 | h1 <;>
        rcases Decidable.not_and_iff_or_not.mp h2 with h2 | h2 <;>
        simp_all

theorem escalateSignal_critical (n : ℕ) (c : ℚ) (s : Signal)
    (h : s.severity = .critical) : escalateSignal n c s = s := by
  unfold escalateSignal
  have h1 : ¬ (2 ≤ n ∧ s.severity = .medium) := by simp [h]
  simp only [h1, if_false]
  have h2 : ¬ ((500000:ℚ) < c ∧ s.severity = .medium) := by simp [h]
  simp [h2]

theorem combinedOverpayment_escalate (l : List Signal) (n : ℕ) (c : ℚ) :
    combinedOverpayment (l.map (escalateSignal n c)) = combinedOverpayment l := by
  unfold combinedOverpayment
  rw [List.map_map]
  congr 1
  apply List.map_congr_left
  intro s _
  exact escalateSignal_overpayment n c s

theorem flagged_providers_eq (lookup : String → NppesInfo) (provs : List ProviderEntry)
    (t : ℤ) :
    (enrich_and_finalize lookup provs t).flagged_providers =
      sortKeyDesc (fun p => p.combined_estimated_overpayment_usd)
        (provs.map (finalizeProvider lookup)) := rfl

theorem mem_flagged_providers {lookup : String → NppesInfo} {provs : List ProviderEntry}
    {t : ℤ} {p : FinalProvider}
    (h : p ∈ (enrich_and_finalize lookup provs t).flagged_providers) :
    ∃ e ∈ provs, p = finalizeProvider lookup e := by
  rw [flagged_providers_eq, mem_sortKeyDesc] at h
  rcases List.mem_map.mp h with ⟨e, he, hpe⟩
  exact ⟨e, he, hpe.symm⟩

/-! ## Claims -/

/-- C2, as stated, is false: the final sort orders by combined
overpayment only; two providers with equal combined overpayment stay in
merge-map order. Here the provider with the larger NPI string comes
first in the report even though both have combined overpayment 100. -/
theorem c2_counterexample :
    ((enrich_and_finalize defaultLookup
        [ { npi := "2222222222", provider_name := "Beta Clinic", entity_type := "organization"
            state := "TX", total_paid := 100, total_claims := 1, total_beneficiaries := 1
            signals := [{ signal_name := "excluded_provider_billing", severity := .critical
                          estimated_overpayment_usd := 100 }] }
        , { npi := "1111111111", provider_name := "Alpha Clinic", entity_type := "organization"
            state := "TX", total_paid := 100, total_claims := 1, total_beneficiaries := 1
            signals := [{ signal_name := "excluded_provider_billing", severity := .critical
                          estimated_overpayment_usd := 100 }] } ] 5).flagged_providers.map
      (fun p => p.npi)) = ["2222222222", "1111111111"]
    ∧ ("1111111111" : String) < "2222222222" := by
  constructor
  · show (sortKeyDesc _ _).map _ = _
    simp only [sortKeyDesc, List.foldl, insertKeyDesc, List.map, finalizeProvider,
      combinedOverpayment]
    rw [if_neg (lt_irrefl _)]
    rfl
  · rw [String.lt_iff_toList_lt]
    decide

/-- C2 amended: the flagged list is sorted non-increasing by combined
estimated overpayment (ties keep the merge-map order; they are not
re-ordered by NPI). -/
theorem c2_amended (lookup : String → NppesInfo) (provs : List ProviderEntry) (t : ℤ) :
    ((enrich_and_finalize lookup provs t).flagged_providers).Pairwise
      (fun a b => b.combined_estimated_overpayment_usd ≤ a.combined_estimated_overpayment_usd) := by
  rw [flagged_providers_eq]
  exact sortKeyDesc_pairwise _ _

/-- C3: after merge and escalation no provider with two or more signals
keeps a medium signal, no provider whose combined overpayment exceeds
500000 keeps a medium signal, and escalation never changes a critical
signal. -/
theorem c3_escalation (lookup : String → NppesInfo) (provs : List ProviderEntry) (t : ℤ)
    (p : FinalProvider) (hp : p ∈ (enrich_and_finalize lookup provs t).flagged_providers) :
    ((2 ≤ p.signals.length → ∀ s ∈ p.signals, s.severity ≠ .medium)
      ∧ (500000 < combinedOverpayment p.signals → ∀ s ∈ p.signals, s.severity ≠ .medium))
    ∧ (∀ (n : ℕ) (c : ℚ) (s : Signal), s.severity = .critical → escalateSignal n c s = s) := by
  refine ⟨?_, fun n c s h => escalateSignal_critical n c s h⟩
  rcases mem_flagged_providers hp with ⟨e, _, rfl⟩
  have hsig : (finalizeProvider lookup e).signals =
      e.signals.map (escalateSignal e.signals.length (combinedOverpayment e.signals)) := rfl
  constructor
  · intro hlen s hs
    rw [hsig] at hs hlen
    rw [List.length_map] at hlen
    rcases List.mem_map.mp hs with ⟨s0, _, rfl⟩
    intro hmed
    exact (escalateSignal_medium _ _ _ hmed).2.1 hlen
  · intro hcomb s hs
    rw [hsig] at hs hcomb
    rw [combinedOverpayment_escalate] at hcomb
    rcases List.mem_map.mp hs with ⟨s0, _, rfl⟩
    intro hmed
    exact (escalateSignal_medium _ _ _ hmed).2.2 hcomb

/-- C5, as stated, is false: a flagged provider whose dominant signal is
the bust-out (rapid escalation) signal receives statute (a)(1)(C), not
(a)(1)(A). -/
theorem c5_counterexample :
    (finalizeProvider defaultLookup
      { npi := "5555555555", provider_name := "NPI 5555555555", entity_type := "unknown"
        state := "", total_paid := 400000, total_claims := 10, total_beneficiaries := 0
        signals := [{ signal_name := "bust_out_scheme", severity := .high
                      estimated_overpayment_usd := 320000 }] }).fca_relevance.statute_reference
      = "31 U.S.C. section 3729(a)(1)(C)"
    ∧ ("31 U.S.C. section 3729(a)(1)(C)" : String) ≠ "31 U.S.C. section 3729(a)(1)(A)" := by
  exact ⟨rfl, by decide⟩

/-- C5 amended: the statute attached to a flagged provider is
`statuteFor` of the dominant signal name, and the actual mapping of
`build_fca_relevance` sends bust-out to (a)(1)(C), home health to
(a)(1)(B) and the shell network to (a)(1)(G), with all remaining signals
(and unknown names) going to (a)(1)(A); the `STATUTE_MAP` dict of
`src/output.py` instead maps rapid escalation to (a)(1)(A), shared
official to (a)(1)(C) and geographic implausibility to (a)(1)(G). -/
theorem c5_amended :
    (∀ (lookup : String → NppesInfo) (prov : ProviderEntry),
      (finalizeProvider lookup prov).fca_relevance.statute_reference
        = statuteFor (topSignal prov.signals).signal_name)
    ∧ statuteFor "excluded_provider_billing" = "31 U.S.C. section 3729(a)(1)(A)"
    ∧ statuteFor "statistical_billing_outlier" = "31 U.S.C. section 3729(a)(1)(A)"
    ∧ statuteFor "bust_out_scheme" = "31 U.S.C. section 3729(a)(1)(C)"
    ∧ statuteFor "impossible_service_volume" = "31 U.S.C. section 3729(a)(1)(A)"
    ∧ statuteFor "home_health_abuse" = "31 U.S.C. section 3729(a)(1)(B)"
    ∧ statuteFor "shell_entity_network" = "31 U.S.C. section 3729(a)(1)(G)"
    ∧ statuteFor "geographic_anomaly" = "31 U.S.C. section 3729(a)(1)(A)"
    ∧ statuteFor "temporal_billing_anomaly" = "31 U.S.C. section 3729(a)(1)(A)"
    ∧ statuteFor "procedure_code_concentration" = "31 U.S.C. section 3729(a)(1)(A)"
    ∧ STATUTE_MAP "excluded_provider" = some "31 U.S.C. section 3729(a)(1)(A)"
    ∧ STATUTE_MAP "billing_outlier" = some "31 U.S.C. section 3729(a)(1)(A)"
    ∧ STATUTE_MAP "rapid_escalation" = some "31 U.S.C. section 3729(a)(1)(A)"
    ∧ STATUTE_MAP "workforce_impossibility" = some "31 U.S.C. section 3729(a)(1)(B)"
    ∧ STATUTE_MAP "shared_official" = some "31 U.S.C. section 3729(a)(1)(C)"
    ∧ STATUTE_MAP "geographic_implausibility" = some "31 U.S.C. section 3729(a)(1)(G)" := by
  refine ⟨fun lookup prov => rfl, ?_⟩
  repeat constructor

/-- C10: when the population variance (hence the population standard
deviation) of total paid over the eligible providers is zero, signal 2
emits no rows; the guarded division never divides by zero. -/
theorem c10_degenerate_sigma (sp : List SpendRow)
    (h : popVar (signal2Paids sp) = 0) :
    signal_2_statistical_outliers sp = [] := by
  unfold signal_2_statistical_outliers
  have hflt : (signal2Eligible sp).filter
      (fun p => decide (zScoreAboveThree p.total_paid (popMean (signal2Paids sp))
        (popVar (signal2Paids sp)))) = [] := by
    apply List.filter_eq_nil_iff.mpr
    intro p _
    simp only [decide_eq_true_eq]
    intro hz
    exact hz.1 h
  rw [hflt]
  rfl

/-- C1: for cent-valued signal overpayments (every detector emits
`round(x, 2)` values), each flagged provider record carries the sum of
its merged signal overpayments, and the report total is the sum of the
per-provider combined overpayments. -/
theorem c1_overpayment_sums (lookup : String → NppesInfo) (provs : List ProviderEntry)
    (t : ℤ)
    (hc : ∀ e ∈ provs, ∀ s ∈ e.signals, IsCents s.estimated_overpayment_usd) :
    (∀ p ∈ (enrich_and_finalize lookup provs t).flagged_providers,
        p.combined_estimated_overpayment_usd
          = (p.signals.map (fun s => s.estimated_overpayment_usd)).sum)
    ∧ (enrich_and_finalize lookup provs t).total_estimated_overpayment_usd
        = ((enrich_and_finalize lookup provs t).flagged_providers.map
            (fun p => p.combined_estimated_overpayment_usd)).sum := by
  have hcents : ∀ e ∈ provs, IsCents (combinedOverpayment e.signals) := by
    intro e he
    apply isCents_listSum
    intro x hx
    rcases List.mem_map.mp hx with ⟨s, hs, rfl⟩
    exact hc e he s hs
  constructor
  · intro p hp
    rcases mem_flagged_providers hp with ⟨e, he, rfl⟩
    show round2 (combinedOverpayment e.signals)
      = combinedOverpayment (e.signals.map
          (escalateSignal e.signals.length (combinedOverpayment e.signals)))
    rw [combinedOverpayment_escalate]
    exact round2_isCents _ (hcents e he)
  · show round2 ((provs.map (fun p => combinedOverpayment p.signals)).sum)
      = ((sortKeyDesc (fun p => p.combined_estimated_overpayment_usd)
          (provs.map (finalizeProvider lookup))).map
            (fun p => p.combined_estimated_overpayment_usd)).sum
    have hperm := (sortKeyDesc_perm (fun p : FinalProvider => p.combined_estimated_overpayment_usd)
      (provs.map (finalizeProvider lookup))).map
      (fun p : FinalProvider => p.combined_estimated_overpayment_usd)
    rw [hperm.sum_eq, List.map_map]
    have hmap : (provs.map ((fun p : FinalProvider => p.combined_estimated_overpayment_usd)
        ∘ finalizeProvider lookup))
        = provs.map (fun e => combinedOverpayment e.signals) := by
      apply List.map_congr_left
      intro e he
      show round2 (combinedOverpayment e.signals) = combinedOverpayment e.signals
      exact round2_isCents _ (hcents e he)
    rw [hmap]
    apply round2_isCents
    apply isCents_listSum
    intro x hx
    rcases List.mem_map.mp hx with ⟨e, he, rfl⟩
    exact hcents e he

/-- The signal-1 records carrying a given NPI are, up to the final
ordering, exactly one record per exclusion row of that NPI that passes
the usability, reinstatement and positive-billing filters. -/
theorem usableNpi_some {e : ExclRow} (h : usableNpi e) : e.npi = some (exclNpi e) := by
  unfold usableNpi at h
  unfold exclNpi
  cases hx : e.npi with
  | none => rw [hx] at h; exact h.elim
  | some s => simp [hx]

theorem mkSignal1Entry_npi (e : ExclRow) (n : String) (sp : List SpendRow) :
    (mkSignal1Entry e n sp).npi = n := rfl

theorem signal1_ents_filter (excl : List ExclRow) (sp : List SpendRow) (n : String) :
    ((((excl.filter (fun e => usableNpi e ∧ reinActive e)).filter
        (fun e => 0 < totalPaidOf sp (exclNpi e))).map
        (fun e => mkSignal1Entry e (exclNpi e) sp)).filter (fun p => p.npi = n))
    = (excl.filter (fun e => e.npi = some n ∧ usableNpi e ∧ reinActive e
        ∧ 0 < totalPaidOf sp n)).map (fun e => mkSignal1Entry e n sp) := by
  induction excl with
  | nil => rfl
  | cons x xs ih =>
    by_cases hu : usableNpi x ∧ reinActive x
    · rw [List.filter_cons_of_pos (by simpa using hu)]
      by_cases hp : 0 < totalPaidOf sp (exclNpi x)
      · rw [List.filter_cons_of_pos (by simpa using hp), List.map_cons]
        by_cases hn : exclNpi x = n
        · rw [List.filter_cons_of_pos (by simp [mkSignal1Entry_npi, hn])]
          rw [List.filter_cons_of_pos (by
            have hsome : x.npi = some n := hn ▸ usableNpi_some hu.1
            simp [hsome, hu.1, hu.2, hn ▸ hp])]
          rw [List.map_cons, ih, hn]
        · rw [List.filter_cons_of_neg (by simp [mkSignal1Entry_npi, hn])]
          rw [List.filter_cons_of_neg (by
            simp only [decide_eq_true_eq]
            rintro ⟨hsome, -, -, -⟩
            rw [usableNpi_some hu.1] at hsome
            exact hn (Option.some_injective _ hsome))]
          exact ih
      · rw [List.filter_cons_of_neg (by simpa using hp)]
        rw [List.filter_cons_of_neg (by
          simp only [decide_eq_true_eq]
          rintro ⟨hsome, -, -, hpaid⟩
          rw [usableNpi_some hu.1] at hsome
          rw [Option.some_injective _ hsome] at hp
          exact hp hpaid)]
        exact ih
    · rw [List.filter_cons_of_neg (by simpa using hu)]
      rw [List.filter_cons_of_neg (by
        simp only [decide_eq_true_eq]
        rintro ⟨-, h1, h2, -⟩
        exact hu ⟨h1, h2⟩)]
      exact ih

theorem signal1_filter_npi (excl : List ExclRow) (sp : List SpendRow) (n : String) :
    ((signal_1_excluded_providers excl sp).filter (fun p => p.npi = n)).Perm
      ((excl.filter (fun e => e.npi = some n ∧ usableNpi e ∧ reinActive e
          ∧ 0 < totalPaidOf sp n)).map (fun e => mkSignal1Entry e n sp)) := by
  unfold signal_1_excluded_providers
  refine ((sortKeyDesc_perm _ _).filter _).trans ?_
  exact List.Perm.of_eq (signal1_ents_filter excl sp n)

/-- C4 amended: with `0` and whitespace-only strings added to the
reinstatement sentinels, the provider of a unique active exclusion row
with positive billing is emitted exactly once, with a single critical
signal whose overpayment is the rounded total paid; a row whose
reinstatement value is none of the sentinels is never emitted. -/
theorem c4_amended (excl : List ExclRow) (sp : List SpendRow) (n : String) (e : ExclRow)
    (hone : excl.filter (fun x => x.npi = some n) = [e]) :
    ((usableNpi e ∧ reinActive e ∧ 0 < totalPaidOf sp n) →
      (signal_1_excluded_providers excl sp).filter (fun p => p.npi = n)
        = [mkSignal1Entry e n sp]
      ∧ (mkSignal1Entry e n sp).signals
        = [{ signal_name := "excluded_provider_billing", severity := Severity.critical,
             estimated_overpayment_usd := round2 (totalPaidOf sp n) }])
    ∧ (¬ reinActive e →
        (signal_1_excluded_providers excl sp).filter (fun p => p.npi = n) = []) := by
  have hcomm : excl.filter (fun e => e.npi = some n ∧ usableNpi e ∧ reinActive e
      ∧ 0 < totalPaidOf sp n)
      = (excl.filter (fun x => x.npi = some n)).filter
          (fun e => usableNpi e ∧ reinActive e ∧ 0 < totalPaidOf sp n) := by
    rw [List.filter_filter]
    apply List.filter_congr
    intro x _
    by_cases h1 : x.npi = some n
    · by_cases h2 : usableNpi x ∧ reinActive x ∧ 0 < totalPaidOf sp n
      · simp [h1, h2.1, h2.2.1, h2.2.2]
      · rcases Decidable.not_and_iff_or_not.mp h2 with h | h
        · simp [h1, h]
        · rcases Decidable.not_and_iff_or_not.mp h with h | h <;> simp [h1, h]
    · simp [h1]
  constructor
  · rintro ⟨h1, h2, h3⟩
    constructor
    · have hperm := signal1_filter_npi excl sp n
      rw [hcomm, hone, List.filter_cons_of_pos (by simp [h1, h2, h3]),
        List.filter_nil, List.map_cons, List.map_nil] at hperm
      exact List.perm_singleton.mp hperm
    · rfl
  · intro hrein
    have hperm := signal1_filter_npi excl sp n
    rw [hcomm, hone, List.filter_cons_of_neg (by simp [hrein]),
      List.filter_nil, List.map_nil] at hperm
    exact List.perm_nil.mp hperm

/-! ## Concrete fixtures for claim C4 -/

/-- An exclusion row with the sentinel reinstatement date `00000000`. -/
def c4ExclActive : ExclRow :=
  { npi := some "3434343434", last_name := "DOE", first_name := "JAN", bus_name := ""
    excl_state := "TX", excl_type := "1128b4", excl_date := "20200101"
    rein_date := some "00000000" }

/-- An exclusion row whose reinstatement value is the string `0`. -/
def c4ExclZero : ExclRow :=
  { npi := some "3434343434", last_name := "DOE", first_name := "JAN", bus_name := ""
    excl_state := "TX", excl_type := "1128b4", excl_date := "20200101"
    rein_date := some "0" }

/-- A spending snapshot with one paid row for the excluded provider. -/
def c4Spend : List SpendRow :=
  [ { billing_npi := "3434343434", servicing_npi := "3434343434", hcpcs_code := "99213"
      claim_month := "2023-03", beneficiaries := 2, claims := 3, paid := 150 } ]

/-- C4, as stated, is false: the code also treats the reinstatement
value `0` as a sentinel, so a provider whose exclusion row carries the
non-sentinel reinstatement value `0` is still emitted by signal 1. -/
theorem c4_counterexample :
    ((signal_1_excluded_providers [c4ExclZero] c4Spend).map (fun p => p.npi))
      = ["3434343434"]
    ∧ ((some "0" : Option String) ≠ none ∧ "0" ≠ "00000000" ∧ "0" ≠ "") := by
  constructor
  · show (sortKeyDesc _ _).map _ = _
    rw [List.filter_cons_of_pos (by with_unfolding_all decide)]
    rw [List.filter_cons_of_pos (by
      have : totalPaidOf c4Spend (exclNpi c4ExclZero) = 150 := by
        norm_num [totalPaidOf, c4Spend, exclNpi, c4ExclZero, List.filter_cons, List.filter_nil]
      norm_num [this])]
    rfl
  · exact ⟨by decide, by decide, by decide⟩

/-- C4 witness: the amended statement at a concrete snapshot with the
sentinel reinstatement date `00000000`. -/
theorem c4_witness :
    ([c4ExclActive].filter (fun x => x.npi = some "3434343434") = [c4ExclActive])
    ∧ (usableNpi c4ExclActive ∧ reinActive c4ExclActive
        ∧ 0 < totalPaidOf c4Spend "3434343434")
    ∧ ((signal_1_excluded_providers [c4ExclActive] c4Spend).filter
          (fun p => p.npi = "3434343434")
        = [mkSignal1Entry c4ExclActive "3434343434" c4Spend]
      ∧ (mkSignal1Entry c4ExclActive "3434343434" c4Spend).signals
        = [{ signal_name := "excluded_provider_billing", severity := Severity.critical,
             estimated_overpayment_usd := round2 (totalPaidOf c4Spend "3434343434") }]) :=
  have h1 : [c4ExclActive].filter (fun x => x.npi = some "3434343434") = [c4ExclActive] := by
    decide
  have h2 : usableNpi c4ExclActive ∧ reinActive c4ExclActive
      ∧ 0 < totalPaidOf c4Spend "3434343434" := by
    refine ⟨by with_unfolding_all decide, by decide, ?_⟩
    norm_num [totalPaidOf, c4Spend, List.filter_cons, List.filter_nil]
  ⟨h1, h2, (c4_amended [c4ExclActive] c4Spend "3434343434" c4ExclActive h1).1 h2⟩

/-! ## Claim C7 — signal 3 emission -/

/-- C7 amended: with the sorted months of a provider starting at
`(m0, p0)` and a non-empty window of months 2 through 7, signal 3 emits
the provider exactly when the first month is at or after `2023-01`, the
first-month paid strictly exceeds 100, and the peak STRICTLY exceeds
six times the first-month paid; the emitted overpayment is
`round(peak * 0.8, 2)`, and a first-month paid of exactly 100 is never
emitted. -/
theorem c7_amended (months : List (String × ℚ)) (m0 : String) (p0 : ℚ)
    (rest : List (String × ℚ)) (q : ℚ) (qs : List ℚ)
    (hsort : sortKeyAsc Prod.fst months = (m0, p0) :: rest)
    (hwin : (rest.take 6).map Prod.snd = q :: qs) :
    ((signal_3_eval months).isSome
      ↔ ("2023-01" ≤ m0 ∧ 100 < p0 ∧ p0 * 6 < peakOf q qs))
    ∧ (∀ v, signal_3_eval months = some v → v = round2 (peakOf q qs * (8 / 10)))
    ∧ (p0 = 100 → signal_3_eval months = none) := by
  unfold signal_3_eval
  rw [hsort]
  dsimp only
  rw [hwin]
  by_cases h0 : m0 < "2023-01"
  · simp only [h0, if_true]
    refine ⟨by simp [not_le.mpr h0], by simp, by simp⟩
  · simp only [h0, if_false]
    by_cases hc : 100 < p0 ∧ p0 * 6 < peakOf q qs
    · simp only [hc, if_true]
      refine ⟨by simp [not_lt.mp h0, hc.1, hc.2], ?_, ?_⟩
      · intro v hv
        exact (Option.some_injective _ hv).symm
      · intro hp
        exact absurd hc.1 (by rw [hp]; exact lt_irrefl 100)
    · simp only [hc, if_false]
      refine ⟨by simpa using hc, by simp, by simp⟩

/-- C7, as stated, is false: a provider whose peak equals exactly six
times its first-month paid satisfies the claimed condition
(peak at least six times first-month paid, first-month paid above 100)
but is not emitted, because the code requires a strict inequality. -/
theorem c7_counterexample :
    signal_3_eval [("2023-01", 200), ("2023-02", 1200)] = none
    ∧ ((200:ℚ) * 6 ≤ 1200 ∧ (100:ℚ) < 200 ∧ ¬ (("2023-01":String) < "2023-01")) := by
  have hlt : ¬ (("2023-02" : String) < "2023-01") := by
    rw [String.lt_iff_toList_lt]; decide
  have hs : sortKeyAsc Prod.fst [("2023-01", (200:ℚ)), ("2023-02", 1200)]
      = [("2023-01", 200), ("2023-02", 1200)] := by
    simp [sortKeyAsc, List.foldl, insertKeyAsc, hlt]
  constructor
  · unfold signal_3_eval
    rw [hs]
    dsimp only
    rw [if_neg (lt_irrefl _)]
    norm_num [peakOf]
  · exact ⟨by norm_num, by norm_num, lt_irrefl _⟩

/-- C7 witness: a provider with first month `2023-01`, first-month paid
200 and peak 1300 is emitted with overpayment `round(1300 * 0.8, 2)`. -/
theorem c7_witness :
    (sortKeyAsc Prod.fst [("2023-01", (200:ℚ)), ("2023-02", 1300)]
      = [("2023-01", 200), ("2023-02", 1300)])
    ∧ (([(("2023-02":String), (1300:ℚ))].take 6).map Prod.snd = [1300])
    ∧ (((signal_3_eval [("2023-01", 200), ("2023-02", 1300)]).isSome
        ↔ ("2023-01" ≤ "2023-01" ∧ (100:ℚ) < 200 ∧ (200:ℚ) * 6 < peakOf 1300 []))
      ∧ (∀ v, signal_3_eval [("2023-01", 200), ("2023-02", 1300)] = some v
          → v = round2 (peakOf 1300 [] * (8 / 10)))
      ∧ ((200:ℚ) = 100 → signal_3_eval [("2023-01", 200), ("2023-02", 1300)] = none)) :=
  have hlt : ¬ (("2023-02" : String) < "2023-01") := by
    rw [String.lt_iff_toList_lt]; decide
  have hs : sortKeyAsc Prod.fst [("2023-01", (200:ℚ)), ("2023-02", 1300)]
      = [("2023-01", 200), ("2023-02", 1300)] := by
    simp [sortKeyAsc, List.foldl, insertKeyAsc, hlt]
  have hw : (([(("2023-02":String), (1300:ℚ))].take 6).map Prod.snd) = [1300] := by rfl
  ⟨hs, hw, c7_amended _ "2023-01" 200 _ 1300 [] hs hw⟩

/-! ## Claim C6 — signal 6 per-network computation -/

/-- C6 amended: for an official group (the upstream query requires at
least five distinct NPIs), the network is emitted exactly when some of
the FIRST TWENTY listed NPIs have billing rows and their combined paid
is at least 10000; the record then carries that first-twenty combined
paid, overpayment `round(total * 0.3, 2)`, and severity medium below
500000 and high at or above it. The combined figure is computed over at
most the first 20 NPIs of the list, not over all NPIs of the group. -/
theorem c6_amended (npis : List String) (sp : List SpendRow) (h5 : 5 ≤ npis.length) :
    ((signal_6_network npis sp).isSome
      ↔ (signal6ActiveNpis npis sp ≠ [] ∧ 10000 ≤ signal6NetworkPaid npis sp))
    ∧ (∀ r, signal_6_network npis sp = some r →
        r.network_total_paid = signal6NetworkPaid npis sp
        ∧ r.estimated_overpayment_usd = round2 (signal6NetworkPaid npis sp * (3 / 10))
        ∧ r.severity = (if signal6NetworkPaid npis sp < 500000 then Severity.medium
            else Severity.high)) := by
  unfold signal_6_network
  by_cases ha : signal6ActiveNpis npis sp = []
  · simp [ha]
  · by_cases ht : signal6NetworkPaid npis sp < 10000
    · simp [ha, ht, not_le.mpr ht]
    · simp only [ha, if_false, ht, if_false]
      refine ⟨by simp [ha, not_lt.mp ht], ?_⟩
      intro r hr
      rw [← Option.some_injective _ hr]
      exact ⟨rfl, rfl, rfl⟩

/-! ## Concrete fixtures for the remaining witnesses -/

/-- A provider entry with two cent-valued signal overpayments. -/
def c1Entry : ProviderEntry :=
  { npi := "1234567890", provider_name := "NPI 1234567890", entity_type := "unknown"
    state := "", total_paid := 500, total_claims := 3, total_beneficiaries := 2
    signals := [ { signal_name := "statistical_billing_outlier", severity := .high
                   estimated_overpayment_usd := 100 }
               , { signal_name := "bust_out_scheme", severity := .high
                   estimated_overpayment_usd := 401 / 4 } ] }

/-- A provider entry with two medium signals. -/
def c3Entry : ProviderEntry :=
  { npi := "3131313131", provider_name := "Gamma Care", entity_type := "organization"
    state := "FL", total_paid := 900, total_claims := 4, total_beneficiaries := 3
    signals := [ { signal_name := "procedure_code_concentration", severity := .medium
                   estimated_overpayment_usd := 10 }
               , { signal_name := "shell_entity_network", severity := .medium
                   estimated_overpayment_usd := 20 } ] }

/-- A degenerate spending snapshot: two providers with identical totals. -/
def c10Rows : List SpendRow :=
  [ { billing_npi := "aa", servicing_npi := "aa", hcpcs_code := "T1019"
      claim_month := "2023-01", beneficiaries := 1, claims := 1, paid := 5 }
  , { billing_npi := "bb", servicing_npi := "bb", hcpcs_code := "T1019"
      claim_month := "2023-01", beneficiaries := 1, claims := 1, paid := 5 } ]

/-- C1 witness: a concrete provider with cent-valued overpayments; the
combined figure is the plain sum and the report total matches. -/
theorem c1_witness :
    (∀ e ∈ [c1Entry], ∀ s ∈ ProviderEntry.signals e, IsCents s.estimated_overpayment_usd)
    ∧ ((∀ p ∈ (enrich_and_finalize defaultLookup [c1Entry] 7).flagged_providers,
        p.combined_estimated_overpayment_usd
          = (p.signals.map (fun s => s.estimated_overpayment_usd)).sum)
      ∧ (enrich_and_finalize defaultLookup [c1Entry] 7).total_estimated_overpayment_usd
        = ((enrich_and_finalize defaultLookup [c1Entry] 7).flagged_providers.map
            (fun p => p.combined_estimated_overpayment_usd)).sum) :=
  have hc : ∀ e ∈ [c1Entry], ∀ s ∈ ProviderEntry.signals e,
      IsCents s.estimated_overpayment_usd := by
    intro e he s hs
    rw [List.mem_singleton] at he
    subst he
    simp only [c1Entry, List.mem_cons, List.not_mem_nil, or_false] at hs
    rcases hs with hs | hs
    · subst hs; unfold IsCents; norm_num
    · subst hs; unfold IsCents; norm_num
  ⟨hc, c1_overpayment_sums defaultLookup [c1Entry] 7 hc⟩

/-- C3 witness: a provider with two medium signals; after the merge
pass no medium severity remains. -/
theorem c3_witness :
    (finalizeProvider defaultLookup c3Entry
        ∈ (enrich_and_finalize defaultLookup [c3Entry] 9).flagged_providers)
    ∧ 2 ≤ (finalizeProvider defaultLookup c3Entry).signals.length
    ∧ (∀ s ∈ (finalizeProvider defaultLookup c3Entry).signals, s.severity ≠ .medium) :=
  have hmem : finalizeProvider defaultLookup c3Entry
      ∈ (enrich_and_finalize defaultLookup [c3Entry] 9).flagged_providers := by
    show _ ∈ sortKeyDesc _ _
    exact List.mem_singleton.mpr rfl
  have hlen : 2 ≤ (finalizeProvider defaultLookup c3Entry).signals.length := by
    show 2 ≤ (c3Entry.signals.map _).length
    rw [List.length_map]
    exact le_refl 2
  ⟨hmem, hlen, (c3_escalation defaultLookup [c3Entry] 9 _ hmem).1.1 hlen⟩

/-- C10 witness: a concrete population with zero variance; signal 2
emits nothing. -/
theorem c10_witness :
    popVar (signal2Paids c10Rows) = 0
    ∧ signal_2_statistical_outliers c10Rows = [] :=
  have hv : popVar (signal2Paids c10Rows) = 0 := by
    have h1 : npiFirstOcc c10Rows = ["aa", "bb"] := by
      simp [npiFirstOcc, c10Rows, List.foldl]
    have h2 : signal2Paids c10Rows = [5, 5] := by
      have hba : ("bb":String) ≠ "aa" := by decide
      have hab : ("aa":String) ≠ "bb" := by decide
      simp only [signal2Paids, signal2Eligible, providerTotals]
      rw [h1]
      norm_num [totalPaidOf, totalClaimsOf, totalBenesOf, c10Rows, List.filter_cons,
        List.filter_nil, List.map_cons, List.map_nil, List.sum_cons, List.sum_nil, hba, hab]
    rw [h2]
    norm_num [popVar, popMean]
  ⟨hv, c10_degenerate_sigma c10Rows hv⟩

/-! ## Concrete fixtures for claim C6 -/

/-- An official group of 21 distinct NPIs. -/
def c6Npis : List String :=
  [ "p01", "p02", "p03", "p04", "p05", "p06", "p07", "p08", "p09", "p10"
  , "p11", "p12", "p13", "p14", "p15", "p16", "p17", "p18", "p19", "p20", "p21" ]

/-- Spending for the group: the first NPI bills 20000 and the
twenty-first bills 5000. -/
def c6Spend : List SpendRow :=
  [ { billing_npi := "p01", servicing_npi := "p01", hcpcs_code := "99213"
      claim_month := "2023-02", beneficiaries := 4, claims := 9, paid := 20000 }
  , { billing_npi := "p21", servicing_npi := "p21", hcpcs_code := "99213"
      claim_month := "2023-02", beneficiaries := 2, claims := 3, paid := 5000 } ]

/-- C6, as stated, is false: the network billing is computed over only
the first 20 NPIs of the official (`npi_list[:20]`), so the billing of
the twenty-first NPI is ignored and the overpayment differs from 30
percent of the combined billing over all NPIs of the group. -/
theorem c6_counterexample :
    signal_6_network c6Npis c6Spend
      = some { severity := Severity.medium, network_total_paid := 20000
               estimated_overpayment_usd := 6000, active_billing_npis := 1 }
    ∧ signal6CombinedPaidClaimed c6Npis c6Spend = 25000
    ∧ round2 ((25000:ℚ) * (3 / 10)) = 7500
    ∧ (6000:ℚ) ≠ 7500 := by
  have htake : c6Npis.take 20
      = [ "p01", "p02", "p03", "p04", "p05", "p06", "p07", "p08", "p09", "p10"
        , "p11", "p12", "p13", "p14", "p15", "p16", "p17", "p18", "p19", "p20" ] := rfl
  have hnet : signal6NetworkPaid c6Npis c6Spend = 20000 := by
    simp only [signal6NetworkPaid]
    rw [htake]
    simp [totalPaidOf, c6Spend, List.filter_cons, List.filter_nil]
  have hact : signal6ActiveNpis c6Npis c6Spend = ["p01"] := by
    simp only [signal6ActiveNpis]
    rw [htake]
    simp [c6Spend, List.any_cons, List.any_nil]
  have hround : round2 (6000:ℚ) = 6000 :=
    round2_isCents 6000 (by unfold IsCents; norm_num)
  refine ⟨?_, ?_, ?_, by norm_num⟩
  · unfold signal_6_network
    rw [hact, hnet]
    norm_num [hround]
  · simp only [signal6CombinedPaidClaimed, c6Npis, List.map_cons, List.map_nil]
    simp [totalPaidOf, c6Spend, List.filter_cons, List.filter_nil]
    norm_num
  · rw [show (25000:ℚ) * (3 / 10) = 7500 by norm_num]
    exact round2_isCents 7500 (by unfold IsCents; norm_num)

/-- C6 witness: the amended per-network statement at a five-NPI group
with a single billing row. -/
theorem c6_witness :
    5 ≤ (["q1", "q2", "q3", "q4", "q5"] : List String).length
    ∧ (((signal_6_network ["q1", "q2", "q3", "q4", "q5"]
          [ { billing_npi := "q1", servicing_npi := "q1", hcpcs_code := "99213"
              claim_month := "2023-02", beneficiaries := 1, claims := 2, paid := 12000 } ]).isSome
        ↔ (signal6ActiveNpis ["q1", "q2", "q3", "q4", "q5"]
            [ { billing_npi := "q1", servicing_npi := "q1", hcpcs_code := "99213"
                claim_month := "2023-02", beneficiaries := 1, claims := 2, paid := 12000 } ] ≠ []
          ∧ 10000 ≤ signal6NetworkPaid ["q1", "q2", "q3", "q4", "q5"]
              [ { billing_npi := "q1", servicing_npi := "q1", hcpcs_code := "99213"
                  claim_month := "2023-02", beneficiaries := 1, claims := 2, paid := 12000 } ]))
      ∧ (∀ r, signal_6_network ["q1", "q2", "q3", "q4", "q5"]
            [ { billing_npi := "q1", servicing_npi := "q1", hcpcs_code := "99213"
                claim_month := "2023-02", beneficiaries := 1, claims := 2, paid := 12000 } ] = some r →
          r.network_total_paid = signal6NetworkPaid ["q1", "q2", "q3", "q4", "q5"]
              [ { billing_npi := "q1", servicing_npi := "q1", hcpcs_code := "99213"
                  claim_month := "2023-02", beneficiaries := 1, claims := 2, paid := 12000 } ]
          ∧ r.estimated_overpayment_usd = round2 (signal6NetworkPaid ["q1", "q2", "q3", "q4", "q5"]
              [ { billing_npi := "q1", servicing_npi := "q1", hcpcs_code := "99213"
                  claim_month := "2023-02", beneficiaries := 1, claims := 2, paid := 12000 } ] * (3 / 10))
          ∧ r.severity = (if signal6NetworkPaid ["q1", "q2", "q3", "q4", "q5"]
              [ { billing_npi := "q1", servicing_npi := "q1", hcpcs_code := "99213"
                  claim_month := "2023-02", beneficiaries := 1, claims := 2, paid := 12000 } ] < 500000
              then Severity.medium else Severity.high))) :=
  ⟨by norm_num, c6_amended _ _ (by norm_num)⟩

/-! ## Claim C8 — determinism and ordering of detector output -/

/-- An exclusion row for the lexicographically larger of two NPIs. -/
def c8ExclA : ExclRow :=
  { npi := some "9898989898", last_name := "ADAMS", first_name := "AL", bus_name := ""
    excl_state := "TX", excl_type := "1128b4", excl_date := "20200101"
    rein_date := none }

/-- An exclusion row for the lexicographically smaller of two NPIs. -/
def c8ExclB : ExclRow :=
  { npi := some "1212121212", last_name := "BAKER", first_name := "BO", bus_name := ""
    excl_state := "TX", excl_type := "1128b4", excl_date := "20200101"
    rein_date := none }

/-- Spending giving both excluded providers the same total paid. -/
def c8Spend : List SpendRow :=
  [ { billing_npi := "9898989898", servicing_npi := "9898989898", hcpcs_code := "99213"
      claim_month := "2023-03", beneficiaries := 1, claims := 1, paid := 50 }
  , { billing_npi := "1212121212", servicing_npi := "1212121212", hcpcs_code := "99213"
      claim_month := "2023-03", beneficiaries := 1, claims := 1, paid := 50 } ]

/-- C8, as stated, is false in its tie-break clause: two excluded
providers with identical total paid are returned in the order their
exclusion rows occur, not by ascending NPI — here the larger NPI
`9898989898` comes first although `1212121212` sorts before it. -/
theorem c8_counterexample :
    ((signal_1_excluded_providers [c8ExclA, c8ExclB] c8Spend).map (fun p => p.npi))
      = ["9898989898", "1212121212"]
    ∧ totalPaidOf c8Spend "9898989898" = totalPaidOf c8Spend "1212121212"
    ∧ ("1212121212" : String) < "9898989898" := by
  have hne1 : ("1212121212" : String) ≠ "9898989898" := by decide
  have hne2 : ("9898989898" : String) ≠ "1212121212" := by decide
  have hA : totalPaidOf c8Spend "9898989898" = 50 := by
    norm_num [totalPaidOf, c8Spend, List.filter_cons, List.filter_nil, hne1, hne2]
  have hB : totalPaidOf c8Spend "1212121212" = 50 := by
    norm_num [totalPaidOf, c8Spend, List.filter_cons, List.filter_nil, hne1, hne2]
  have hkA : (mkSignal1Entry c8ExclA (exclNpi c8ExclA) c8Spend).total_paid = 50 := hA
  have hkB : (mkSignal1Entry c8ExclB (exclNpi c8ExclB) c8Spend).total_paid = 50 := hB
  have hf1 : ([c8ExclA, c8ExclB].filter (fun e => usableNpi e ∧ reinActive e))
      = [c8ExclA, c8ExclB] := by
    with_unfolding_all decide
  have hf2 : ([c8ExclA, c8ExclB].filter (fun e => 0 < totalPaidOf c8Spend (exclNpi e)))
      = [c8ExclA, c8ExclB] := by
    rw [List.filter_cons_of_pos (by norm_num [exclNpi, c8ExclA, hA]),
      List.filter_cons_of_pos (by norm_num [exclNpi, c8ExclB, hB]), List.filter_nil]
  refine ⟨?_, by rw [hA, hB], by rw [String.lt_iff_toList_lt]; decide⟩
  show (sortKeyDesc _ _).map _ = _
  rw [hf1, hf2]
  rw [List.map_cons, List.map_cons, List.map_nil]
  simp only [sortKeyDesc, List.foldl_cons, List.foldl_nil, insertKeyDesc]
  rw [if_neg (by rw [hkA, hkB]; exact lt_irrefl 50)]
  rfl

/-- C8 amended: over the functional model every stage is a pure
function of the snapshot, so re-running is trivially byte-identical;
what holds of ordering is that each detector and the final report are
sorted non-increasingly by their keys, with ties kept in candidate
order (stable sort), not re-sorted by ascending NPI. -/
theorem c8_amended :
    (∀ (excl : List ExclRow) (sp : List SpendRow),
      (signal_1_excluded_providers excl sp).Pairwise
        (fun a b => b.total_paid ≤ a.total_paid))
    ∧ (∀ sp : List SpendRow,
      (signal_2_statistical_outliers sp).Pairwise
        (fun a b => b.total_paid ≤ a.total_paid))
    ∧ (∀ (lookup : String → NppesInfo) (ps : List ProviderEntry) (t : ℤ),
      (enrich_and_finalize lookup ps t).flagged_providers.Pairwise
        (fun a b => b.combined_estimated_overpayment_usd
          ≤ a.combined_estimated_overpayment_usd)) := by
  refine ⟨?_, ?_, ?_⟩
  · intro excl sp
    show (sortKeyDesc _ _).Pairwise _
    exact sortKeyDesc_pairwise _ _
  · intro sp
    show ((sortKeyDesc _ _).take 200).Pairwise _
    exact List.Pairwise.sublist (List.take_sublist _ _) (sortKeyDesc_pairwise _ _)
  · intro lookup ps t
    show (sortKeyDesc _ _).Pairwise _
    exact sortKeyDesc_pairwise _ _

/-! ## Claim C9 — algebraic properties of the merge stage -/

theorem oStep_swap [LinearOrder γ] (b : Option γ) (x y : γ) :
    oStep (oStep b x) y = oStep (oStep b y) x := by
  cases b with
  | none =>
    show some (max x y) = some (max y x)
    rw [max_comm]
  | some z =>
    show some (max (max z x) y) = some (max (max z y) x)
    rw [max_assoc, max_comm x y, ← max_assoc]

theorem oStep_coll [LinearOrder γ] (b : Option γ) (x y : γ) :
    oStep b (max x y) = oStep (oStep b x) y := by
  cases b with
  | none => rfl
  | some z =>
    show some (max z (max x y)) = some (max (max z x) y)
    rw [max_assoc]

theorem foldl_oStep_out [LinearOrder γ] (l : List γ) :
    ∀ (b : Option γ) (x : γ), l.foldl oStep (oStep b x) = oStep (l.foldl oStep b) x := by
  induction l with
  | nil => intro b x; rfl
  | cons y l ih =>
    intro b x
    rw [List.foldl_cons, List.foldl_cons, oStep_swap, ih]

theorem foldl_oStep_perm [LinearOrder γ] {l₁ l₂ : List γ} (h : l₁.Perm l₂) :
    ∀ b : Option γ, l₁.foldl oStep b = l₂.foldl oStep b := by
  induction h with
  | nil => intro b; rfl
  | cons x _ ih =>
    intro b
    rw [List.foldl_cons, List.foldl_cons]
    exact ih _
  | swap x y l =>
    intro b
    rw [List.foldl_cons, List.foldl_cons, List.foldl_cons, List.foldl_cons, oStep_swap]
  | trans _ _ ih₁ ih₂ =>
    intro b
    rw [ih₁, ih₂]

theorem if_lt_max [LinearOrder γ] (a b : γ) : (if a < b then b else a) = max a b := by
  by_cases h : a < b
  · rw [if_pos h, max_eq_right h.le]
  · rw [if_neg h, max_eq_left (le_of_not_lt h)]

theorem mergeEntry_npi (a e : ProviderEntry) : (mergeEntry a e).npi = a.npi := by
  unfold mergeEntry
  rfl

theorem mergeEntry_signals (a e : ProviderEntry) :
    (mergeEntry a e).signals = a.signals ++ e.signals := by
  unfold mergeEntry
  rfl

theorem mergeEntry_total_paid (a e : ProviderEntry) :
    (mergeEntry a e).total_paid = max a.total_paid e.total_paid := by
  unfold mergeEntry
  exact if_lt_max _ _

theorem mergeEntry_total_claims (a e : ProviderEntry) :
    (mergeEntry a e).total_claims = max a.total_claims e.total_claims := by
  unfold mergeEntry
  exact if_lt_max _ _

theorem mergeEntry_total_beneficiaries (a e : ProviderEntry) :
    (mergeEntry a e).total_beneficiaries = max a.total_beneficiaries e.total_beneficiaries := by
  unfold mergeEntry
  exact if_lt_max _ _

theorem signalsOfNpi_cons (a : ProviderEntry) (L : List ProviderEntry) (n : String) :
    signalsOfNpi (a :: L) n
      = (if a.npi = n then (a.signals : Multiset Signal) else 0) + signalsOfNpi L n := by
  unfold signalsOfNpi
  by_cases h : a.npi = n
  · rw [List.filter_cons_of_pos (by simp [h]), List.map_cons, List.sum_cons, if_pos h]
  · rw [List.filter_cons_of_neg (by simp [h]), if_neg h, zero_add]

theorem signalsOfNpi_insertMerge (e : ProviderEntry) (n : String) :
    ∀ acc : List ProviderEntry,
      signalsOfNpi (insertMergeEntry acc e) n
        = signalsOfNpi acc n
          + (if e.npi = n then (e.signals : Multiset Signal) else 0) := by
  intro acc
  induction acc with
  | nil =>
    rw [show insertMergeEntry [] e = [e] from rfl, signalsOfNpi_cons]
    have h0 : signalsOfNpi ([] : List ProviderEntry) n = 0 := rfl
    rw [h0, add_zero, zero_add]
  | cons a rest ih =>
    rw [show insertMergeEntry (a :: rest) e
        = (if a.npi = e.npi then mergeEntry a e :: rest else a :: insertMergeEntry rest e)
      from rfl]
    by_cases ha : a.npi = e.npi
    · rw [if_pos ha, signalsOfNpi_cons, signalsOfNpi_cons, mergeEntry_npi, mergeEntry_signals]
      by_cases han : a.npi = n
      · have hen : e.npi = n := ha.symm.trans han
        rw [if_pos han, if_pos han, if_pos hen, ← Multiset.coe_add]
        exact add_right_comm _ _ _
      · have hen : e.npi ≠ n := fun hh => han (ha.trans hh)
        rw [if_neg han, if_neg han, if_neg hen, zero_add, add_zero]
    · rw [if_neg ha, signalsOfNpi_cons, signalsOfNpi_cons, ih, add_assoc]

theorem signalsOfNpi_foldl (es : List ProviderEntry) (n : String) :
    ∀ acc : List ProviderEntry,
      signalsOfNpi (es.foldl insertMergeEntry acc) n
        = signalsOfNpi acc n + signalsOfNpi es n := by
  induction es with
  | nil =>
    intro acc
    rw [List.foldl_nil]
    have h0 : signalsOfNpi ([] : List ProviderEntry) n = 0 := rfl
    rw [h0, add_zero]
  | cons e es ih =>
    intro acc
    rw [List.foldl_cons, ih, signalsOfNpi_insertMerge, signalsOfNpi_cons, add_assoc]

theorem signalsOfNpi_perm {L₁ L₂ : List ProviderEntry} (h : L₁.Perm L₂) (n : String) :
    signalsOfNpi L₁ n = signalsOfNpi L₂ n := by
  unfold signalsOfNpi
  exact List.Perm.sum_eq (List.Perm.map _ (List.Perm.filter _ h))

theorem signalsOfNpi_merge (L : List (List ProviderEntry)) (n : String) :
    signalsOfNpi (merge_flagged_providers L) n = signalsOfNpi L.flatten n := by
  rw [show merge_flagged_providers L = L.flatten.foldl insertMergeEntry [] from rfl,
    signalsOfNpi_foldl]
  have h0 : signalsOfNpi ([] : List ProviderEntry) n = 0 := rfl
  rw [h0, zero_add]

theorem maxField_insertMerge (g : ProviderEntry → γ) [LinearOrder γ]
    (hg : ∀ a e, g (mergeEntry a e) = max (g a) (g e)) (e : ProviderEntry) (n : String) :
    ∀ (acc : List ProviderEntry) (b : Option γ),
      (((insertMergeEntry acc e).filter (fun x => x.npi = n)).map g).foldl oStep b
        = if e.npi = n
          then oStep (((acc.filter (fun x => x.npi = n)).map g).foldl oStep b) (g e)
          else ((acc.filter (fun x => x.npi = n)).map g).foldl oStep b := by
  intro acc
  induction acc with
  | nil =>
    intro b
    by_cases hen : e.npi = n
    · rw [if_pos hen, show insertMergeEntry [] e = [e] from rfl,
        List.filter_cons_of_pos (by simp [hen]), List.filter_nil,
        List.map_cons, List.map_nil, List.foldl_cons, List.foldl_nil]
      rfl
    · rw [if_neg hen, show insertMergeEntry [] e = [e] from rfl,
        List.filter_cons_of_neg (by simp [hen]), List.filter_nil]
  | cons a rest ih =>
    intro b
    rw [show insertMergeEntry (a :: rest) e
        = (if a.npi = e.npi then mergeEntry a e :: rest else a :: insertMergeEntry rest e)
      from rfl]
    by_cases ha : a.npi = e.npi
    · rw [if_pos ha]
      by_cases han : a.npi = n
      · have hen : e.npi = n := ha.symm.trans han
        rw [if_pos hen,
          List.filter_cons_of_pos (by simp [mergeEntry_npi, han]),
          List.filter_cons_of_pos (by simp [han]),
          List.map_cons, List.foldl_cons, List.map_cons, List.foldl_cons,
          hg, oStep_coll, foldl_oStep_out]
      · have hen : e.npi ≠ n := fun hh => han (ha.trans hh)
        rw [if_neg hen,
          List.filter_cons_of_neg (by simp [mergeEntry_npi, han]),
          List.filter_cons_of_neg (by simp [han])]
    · rw [if_neg ha]
      by_cases han : a.npi = n
      · rw [List.filter_cons_of_pos (by simp [han]), List.filter_cons_of_pos (by simp [han]),
          List.map_cons, List.foldl_cons, List.map_cons, List.foldl_cons]
        exact ih (oStep b (g a))
      · rw [List.filter_cons_of_neg (by simp [han]), List.filter_cons_of_neg (by simp [han])]
        exact ih b

theorem maxField_foldl (g : ProviderEntry → γ) [LinearOrder γ]
    (hg : ∀ a e, g (mergeEntry a e) = max (g a) (g e)) (n : String) :
    ∀ (es acc : List ProviderEntry),
      maxFieldOfNpi g (es.foldl insertMergeEntry acc) n
        = ((es.filter (fun x => x.npi = n)).map g).foldl oStep (maxFieldOfNpi g acc n) := by
  intro es
  induction es with
  | nil => intro acc; rfl
  | cons e es ih =>
    intro acc
    rw [List.foldl_cons, ih]
    by_cases hen : e.npi = n
    · rw [List.filter_cons_of_pos (by simp [hen]), List.map_cons, List.foldl_cons]
      have hmx : maxFieldOfNpi g (insertMergeEntry acc e) n
          = oStep (maxFieldOfNpi g acc n) (g e) := by
        have hins := maxField_insertMerge g hg e n acc none
        rw [if_pos hen] at hins
        exact hins
      rw [hmx]
    · rw [List.filter_cons_of_neg (by simp [hen])]
      have hmx : maxFieldOfNpi g (insertMergeEntry acc e) n = maxFieldOfNpi g acc n := by
        have hins := maxField_insertMerge g hg e n acc none
        rw [if_neg hen] at hins
        exact hins
      rw [hmx]

theorem maxField_merge (g : ProviderEntry → γ) [LinearOrder γ]
    (hg : ∀ a e, g (mergeEntry a e) = max (g a) (g e))
    (L : List (List ProviderEntry)) (n : String) :
    maxFieldOfNpi g (merge_flagged_providers L) n = maxFieldOfNpi g L.flatten n := by
  rw [show merge_flagged_providers L = L.flatten.foldl insertMergeEntry [] from rfl,
    maxField_foldl g hg n L.flatten []]
  rfl

theorem maxFieldOfNpi_perm (g : ProviderEntry → γ) [LinearOrder γ]
    {L₁ L₂ : List ProviderEntry} (h : L₁.Perm L₂) (n : String) :
    maxFieldOfNpi g L₁ n = maxFieldOfNpi g L₂ n := by
  unfold maxFieldOfNpi
  exact foldl_oStep_perm (List.Perm.map g (List.Perm.filter _ h)) none

/-- C9 amended: the merge stage is order-independent in its signal
multisets and its maximum-merged scalar totals — any two groupings and
orderings of the per-detector lists whose flattened entry streams are
permutations of each other yield, for every NPI, the same multiset of
signals and the same merged `total_paid`, `total_claims` and
`total_beneficiaries`. (The preferred name, state and entity type are
NOT order-independent; see the counterexample.) -/
theorem c9_amended (L₁ L₂ : List (List ProviderEntry))
    (h : L₁.flatten.Perm L₂.flatten) (n : String) :
    signalsOfNpi (merge_flagged_providers L₁) n
      = signalsOfNpi (merge_flagged_providers L₂) n
    ∧ maxFieldOfNpi (fun p => p.total_paid) (merge_flagged_providers L₁) n
      = maxFieldOfNpi (fun p => p.total_paid) (merge_flagged_providers L₂) n
    ∧ maxFieldOfNpi (fun p => p.total_claims) (merge_flagged_providers L₁) n
      = maxFieldOfNpi (fun p => p.total_claims) (merge_flagged_providers L₂) n
    ∧ maxFieldOfNpi (fun p => p.total_beneficiaries) (merge_flagged_providers L₁) n
      = maxFieldOfNpi (fun p => p.total_beneficiaries) (merge_flagged_providers L₂) n := by
  refine ⟨?_, ?_, ?_, ?_⟩
  · rw [signalsOfNpi_merge, signalsOfNpi_merge]
    exact signalsOfNpi_perm h n
  · rw [maxField_merge _ (fun a e => mergeEntry_total_paid a e),
      maxField_merge _ (fun a e => mergeEntry_total_paid a e)]
    exact maxFieldOfNpi_perm _ h n
  · rw [maxField_merge _ (fun a e => mergeEntry_total_claims a e),
      maxField_merge _ (fun a e => mergeEntry_total_claims a e)]
    exact maxFieldOfNpi_perm _ h n
  · rw [maxField_merge _ (fun a e => mergeEntry_total_beneficiaries a e),
      maxField_merge _ (fun a e => mergeEntry_total_beneficiaries a e)]
    exact maxFieldOfNpi_perm _ h n

/-- A first sighting of NPI `5151515151` under the name `Alice Clinic`. -/
def c9EntA : ProviderEntry :=
  { npi := "5151515151", provider_name := "Alice Clinic", entity_type := "organization"
    state := "TX", total_paid := 10, total_claims := 2, total_beneficiaries := 1
    signals := [{ signal_name := "excluded_provider_billing", severity := .critical
                  estimated_overpayment_usd := 10 }] }

/-- A second sighting of the same NPI under the name `Bob Clinic`. -/
def c9EntB : ProviderEntry :=
  { npi := "5151515151", provider_name := "Bob Clinic", entity_type := "organization"
    state := "TX", total_paid := 7, total_claims := 1, total_beneficiaries := 1
    signals := [{ signal_name := "billing_outlier", severity := .high
                  estimated_overpayment_usd := 3 }] }

/-- C9, as stated, is false for the identity fields: merging the same
two sightings of one NPI in the two possible detector orders keeps
different provider names (the last non-placeholder name wins), so the
merge stage is not commutative in the provider name, state and entity
type it prefers. -/
theorem c9_counterexample :
    ((merge_flagged_providers [[c9EntA], [c9EntB]]).map (fun p => p.provider_name))
      = ["Bob Clinic"]
    ∧ ((merge_flagged_providers [[c9EntB], [c9EntA]]).map (fun p => p.provider_name))
      = ["Alice Clinic"]
    ∧ ([[c9EntA], [c9EntB]] : List (List ProviderEntry)).flatten.Perm
        ([[c9EntB], [c9EntA]] : List (List ProviderEntry)).flatten := by
  refine ⟨?_, ?_, List.Perm.swap c9EntB c9EntA []⟩
  · with_unfolding_all decide
  · with_unfolding_all decide

/-- C9 witness: the amended statement at the two-sighting snapshot of
NPI `5151515151`, with the permutation hypothesis discharged by the
swap permutation. -/
theorem c9_witness :
    (([[c9EntA], [c9EntB]] : List (List ProviderEntry)).flatten.Perm
        ([[c9EntB], [c9EntA]] : List (List ProviderEntry)).flatten)
    ∧ (signalsOfNpi (merge_flagged_providers [[c9EntA], [c9EntB]]) "5151515151"
        = signalsOfNpi (merge_flagged_providers [[c9EntB], [c9EntA]]) "5151515151"
      ∧ maxFieldOfNpi (fun p => p.total_paid) (merge_flagged_providers [[c9EntA], [c9EntB]])
          "5151515151"
        = maxFieldOfNpi (fun p => p.total_paid) (merge_flagged_providers [[c9EntB], [c9EntA]])
          "5151515151"
      ∧ maxFieldOfNpi (fun p => p.total_claims) (merge_flagged_providers [[c9EntA], [c9EntB]])
          "5151515151"
        = maxFieldOfNpi (fun p => p.total_claims) (merge_flagged_providers [[c9EntB], [c9EntA]])
          "5151515151"
      ∧ maxFieldOfNpi (fun p => p.total_beneficiaries)
          (merge_flagged_providers [[c9EntA], [c9EntB]]) "5151515151"
        = maxFieldOfNpi (fun p => p.total_beneficiaries)
          (merge_flagged_providers [[c9EntB], [c9EntA]]) "5151515151") :=
  have hp : ([[c9EntA], [c9EntB]] : List (List ProviderEntry)).flatten.Perm
      ([[c9EntB], [c9EntA]] : List (List ProviderEntry)).flatten :=
    List.Perm.swap c9EntB c9EntA []
  ⟨hp, c9_amended [[c9EntA], [c9EntB]] [[c9EntB], [c9EntA]] hp "5151515151"⟩

end FraudDetector
